import Mathlib

/-!
Verification development for the chorus-middleware trip-workflow service.

The TypeScript sources are embedded shallowly:
* remote HTTP calls are modelled by an environment `Env` assigning to every
  remote operation (`Op`) either a success or an `ApiFailure`;
* the append-only error-audit store is modelled by lists of `ErrorRecord`;
  every function returns the records it appends (writer style), and the
  store after a run is the initial store with those records appended;
* JavaScript strings/arrays are Lean `String`/`List`; JS truthiness of a
  string is "non-empty"; `x?.f` is `Option`.

The JS engine's `Array.prototype.sort` is only observably specified as a
stable sort by the comparator (ES2019); a stable sort's output is uniquely
determined by the comparator when the comparator is a total preorder, so it
is modelled by `List.insertionSort`, which Mathlib proves stable and sorted.

`Date.parse` / `new Date(s).getTime()` is modelled by an uninterpreted
`parse : String → Option Int` (milliseconds since epoch; `none` models NaN).
An unparseable timestamp makes the JS comparator inconsistent and the sort
order implementation-defined, so the sort key defaults to 0 there; ordering
claims are only stated under the hypothesis that all timestamps parse,
which the controller's validation guarantees.
-/

namespace Chorus

/-! ### JS string primitives (structural, kernel-evaluable)

`String.toLower`/`splitOn`/`trim` in core use well-founded recursion, so the
JS operations `toLowerCase().includes(..)` and `trim()` are modelled
structurally over character codes (the needles in the source are ASCII). -/

/-- Lower-case a character code as JS `toLowerCase` does on ASCII. -/
def lowerCode (n : Nat) : Nat :=
  if 65 ≤ n ∧ n ≤ 90 then n + 32 else n

/-- Does the first list start with the second? -/
def startsWithCodes : List Nat → List Nat → Bool
  | _, [] => true
  | [], _ :: _ => false
  | a :: as, b :: bs => a == b && startsWithCodes as bs

/-- Does the second list contain the first as a contiguous run? -/
def containsCodes (needle : List Nat) : List Nat → Bool
  | [] => needle.isEmpty
  | a :: rest => startsWithCodes (a :: rest) needle || containsCodes needle rest

/-- JS `s.includes(pat)`. -/
def strContains (s pat : String) : Bool :=
  containsCodes (pat.data.map Char.toNat) (s.data.map Char.toNat)

/-- JS `s.toLowerCase().includes(pat)` for an already lower-case `pat`. -/
def strContainsLower (s pat : String) : Bool :=
  containsCodes (pat.data.map (fun c => lowerCode c.toNat))
    (s.data.map (fun c => lowerCode c.toNat))

/-- ASCII whitespace character code (JS `trim` also strips Unicode spaces,
which do not occur in the identifiers this service handles). -/
def isWhitespaceCode (n : Nat) : Bool :=
  n == 32 || n == 9 || n == 10 || n == 13 || n == 12 || n == 11

/-- JS `s.trim()`. -/
def jsTrim (s : String) : String :=
  String.mk (((s.data.dropWhile fun c => isWhitespaceCode c.toNat).reverse.dropWhile
    fun c => isWhitespaceCode c.toNat).reverse)

/-- JS truthiness of a `string | undefined` value. -/
def jsTruthy : Option String → Bool
  | none => false
  | some s => s ≠ ""

/-- JS `a || b` on `string | undefined` values. -/
def jsOr (a b : Option String) : Option String :=
  if jsTruthy a then a else b

/-! ### Data model -/

/-- One work item of a batch (interface `TripData` in
`chorus-api.service.ts`): `{ toteId, olpn, timestamp }`. -/
structure TripData where
  toteId : String
  olpn : String
  timestamp : String
deriving DecidableEq, Repr

/-- The shape-sniffed parts of a request payload that the gateway's error
handler reads (`payload.assetIdentifier?.customerId`,
`payload.tripIdentifier?.customerId`, `payload.trip?.customerId`). The
operation-specific remaining fields (`tripStages`, `newStage`, timestamps)
do not influence error handling and are not modelled. -/
structure Payload where
  assetCustomerId : Option String
  tripCustomerId : Option String
  tripObjCustomerId : Option String
deriving DecidableEq, Repr

/-- How a remote call failed: a non-ok HTTP response (status, body text) or
a fetch-level exception (error code, message). -/
inductive FailureKind where
  | http (status : Nat) (body : String)
  | transport (code : String) (msg : String)
deriving DecidableEq, Repr

/-- A failing remote call, together with whether the gateway's own
`createErrorLog` database write succeeded (the source catches `dbError` and
then leaves `isLogged` false). -/
structure ApiFailure where
  kind : FailureKind
  dbOk : Bool
deriving DecidableEq, Repr

/-- A row appended to the error audit store (`ErrorLogData` without the
serialized `requestPayload`, which no property here depends on). -/
structure ErrorRecord where
  endpoint : String
  errorType : String
  statusCode : Nat
  errorMessage : String
  toteId : Option String
  olpn : Option String
deriving DecidableEq, Repr

/-- The typed error `ChorusApiError` thrown by `makeApiRequest`. -/
structure ChorusApiError where
  message : String
  endpoint : String
  statusCode : Nat
  requestPayload : Option Payload
  isLogged : Bool
  toteId : Option String
  olpn : Option String
deriving DecidableEq, Repr

/-- A value caught by a `catch` site: the typed gateway error or any other
thrown value (reduced to its message). -/
inductive CaughtError where
  | chorus (e : ChorusApiError)
  | other (msg : String)
deriving DecidableEq, Repr

/-- The context argument of `logWorkflowError` (its `workflowName` and
ad-hoc `requestPayload` fields do not reach the stored record for typed
errors and are not modelled). -/
structure WorkflowContext where
  toteId : Option String
  olpn : Option String
  step : Option String
deriving DecidableEq, Repr

/-- One element of `data.trips` in a ListInTransit response; only
`customerId` is read by the source. -/
structure RawTrip where
  customerId : Option String
deriving DecidableEq, Repr

/-- The six remote operations, with their arguments. -/
inductive Op where
  | list (toteId : String)
  | endTrip (olpn : String) (timestamp : String)
  | endTracking (toteId : String) (olpn : String)
  | createTrip (olpn : String) (timestamp : String)
  | startTracking (toteId : String) (olpn : String)
  | updateInTransit (olpn : String) (timestamp : String)
deriving DecidableEq, Repr

/-- The remote API's behaviour: for each operation, `none` means the call
succeeds, `some f` that it fails as `f` describes; `listTrips` is the
`data.trips` field of a successful ListInTransit response (`none` models a
response without that field). -/
structure Env where
  outcome : Op → Option ApiFailure
  listTrips : String → Option (List RawTrip)

/-- The endpoint path each operation is sent to. -/
def opEndpoint : Op → String
  | Op.list _ => "v1alpha1/trips:list"
  | Op.endTrip _ _ => "v1alpha1/trips:updateStage"
  | Op.endTracking _ _ => "v1alpha1/trackings:end"
  | Op.createTrip _ _ => "v1alpha1/trips"
  | Op.startTracking _ _ => "v1alpha1/trackings:addTrip"
  | Op.updateInTransit _ _ => "v1alpha1/trips:updateStage"

/-- The identifier-bearing payload parts each operation sends, as built by
the six service methods. -/
def opPayload : Op → Payload
  | Op.list toteId =>
      { assetCustomerId := some toteId, tripCustomerId := none, tripObjCustomerId := none }
  | Op.endTrip olpn _ =>
      { assetCustomerId := none, tripCustomerId := some olpn, tripObjCustomerId := none }
  | Op.endTracking toteId olpn =>
      { assetCustomerId := some toteId, tripCustomerId := some olpn, tripObjCustomerId := none }
  | Op.createTrip olpn _ =>
      { assetCustomerId := none, tripCustomerId := none, tripObjCustomerId := some olpn }
  | Op.startTracking toteId olpn =>
      { assetCustomerId := some toteId, tripCustomerId := some olpn, tripObjCustomerId := none }
  | Op.updateInTransit olpn _ =>
      { assetCustomerId := none, tripCustomerId := some olpn, tripObjCustomerId := none }

/-! ### Remote call gateway (`makeApiRequest`) -/

/-- `isTimeoutError` of the service. -/
def isTimeoutError (statusCode : Nat) (errorMessage : String) : Bool :=
  statusCode == 504 || statusCode == 408 ||
  strContainsLower errorMessage ("timeout") ||
  strContainsLower errorMessage ("gateway timeout")

/-- The failure path of `makeApiRequest`: builds the `ChorusApiError`,
appends one `ErrorRecord` when the database write succeeds (and only then
marks the error logged), and returns the error to be thrown together with
the records appended. Mirrors both the non-ok-response branch and the
catch branch of the source. -/
def makeApiRequestFail (endpoint : String) (payload : Option Payload) (f : ApiFailure) :
    ChorusApiError × List ErrorRecord :=
  match f.kind with
  | FailureKind.http status body =>
      let asset := payload.bind fun p => p.assetCustomerId
      let trip := payload.bind fun p => p.tripCustomerId
      let tripObj := payload.bind fun p => p.tripObjCustomerId
      let toteId := if jsTruthy asset then asset else none
      let olpn := if jsTruthy trip then trip else if jsTruthy tripObj then tripObj else none
      let msg := "Chorus API Error (" ++ toString status ++ "): " ++ body
      let e : ChorusApiError :=
        { message := msg, endpoint := endpoint, statusCode := status,
          requestPayload := payload, isLogged := false, toteId := toteId, olpn := olpn }
      if f.dbOk then
        ({ e with isLogged := true },
         [{ endpoint := endpoint,
            errorType := if isTimeoutError status body then "TIMEOUT_ERROR" else "API_ERROR",
            statusCode := status, errorMessage := msg, toteId := toteId, olpn := olpn }])
      else (e, [])
  | FailureKind.transport code msg0 =>
      let asset := payload.bind fun p => p.assetCustomerId
      let trip := payload.bind fun p => p.tripCustomerId
      let tripObj := payload.bind fun p => p.tripObjCustomerId
      let isNetworkError := code == "ENOTFOUND" || code == "ECONNREFUSED" ||
        code == "ECONNRESET" || strContains msg0 ("fetch") || strContains msg0 ("network")
      let msg := if isNetworkError then "Network error: " ++ msg0 else "Request failed: " ++ msg0
      let e : ChorusApiError :=
        { message := msg, endpoint := endpoint, statusCode := 0,
          requestPayload := payload, isLogged := false,
          toteId := asset, olpn := jsOr trip tripObj }
      if f.dbOk then
        ({ e with isLogged := true },
         [{ endpoint := endpoint,
            errorType := if e.statusCode == 0 then "NETWORK_ERROR" else "REQUEST_ERROR",
            statusCode := e.statusCode, errorMessage := e.message,
            toteId := asset, olpn := jsOr trip tripObj }])
      else (e, [])

/-- One gateway call for operation `op` under environment `env`: `none` on
success, otherwise the thrown `ChorusApiError` and the records the gateway
appended. -/
def callOp (env : Env) (op : Op) : Option (ChorusApiError × List ErrorRecord) :=
  (env.outcome op).map fun f => makeApiRequestFail (opEndpoint op) (some (opPayload op)) f

/-- `logWorkflowError`: skips errors already logged by the gateway,
otherwise appends one WORKFLOW_ERROR record (its own database write's
failure is caught and ignored in the source; the store is modelled as
reliable for this handler). Returns the records appended. -/
def logWorkflowError (err : CaughtError) (ctx : WorkflowContext) : List ErrorRecord :=
  match err with
  | CaughtError.chorus e =>
      if e.isLogged then []
      else
        [{ endpoint := e.endpoint, errorType := "WORKFLOW_ERROR", statusCode := e.statusCode,
           errorMessage := e.message, toteId := e.toteId, olpn := e.olpn }]
  | CaughtError.other msg =>
      [{ endpoint := "workflow", errorType := "WORKFLOW_ERROR", statusCode := 0,
         errorMessage := msg, toteId := ctx.toteId, olpn := ctx.olpn }]

/-! ### `listAllTripsInTransit` -/

/-- The `data.trips.forEach` loop of `listAllTripsInTransit`: keep a trip's
`customerId` (and the pair `(toteId, customerId)`) exactly when
`trip.customerId?.trim()` is truthy. -/
def collectTrips (toteId : String) : List RawTrip → List String × List (String × String)
  | [] => ([], [])
  | trip :: rest =>
      let (customerIds, toteOlpnPairs) := collectTrips toteId rest
      match trip.customerId with
      | some cid =>
          if jsTrim cid = "" then (customerIds, toteOlpnPairs)
          else (cid :: customerIds, (toteId, cid) :: toteOlpnPairs)
      | none => (customerIds, toteOlpnPairs)

/-- Post-processing of a successful ListInTransit response (`if
(data.trips) { ... }`). -/
def listExtract (toteId : String) (tripsField : Option (List RawTrip)) :
    List String × List (String × String) :=
  match tripsField with
  | some trips => collectTrips toteId trips
  | none => ([], [])

/-- `listAllTripsInTransit`: one gateway call, then extraction. -/
def listAllTripsInTransit (env : Env) (toteId : String) :
    Except (ChorusApiError × List ErrorRecord) (List String × List (String × String)) :=
  match callOp env (Op.list toteId) with
  | some fe => Except.error fe
  | none => Except.ok (listExtract toteId (env.listTrips toteId))

/-! ### Trip workflow orchestrator (`executeTripWorkflow`) -/

/-- What processing one `TripData` produced: the per-item `success` and
`errors` of the source's `processTripData` closure, plus the sequence of
remote operations attempted (`trace`, the structured counterpart of the
textual `tripLog`) and the error records appended (`emitted`). -/
structure ItemOutcome where
  success : Bool
  errors : Nat
  trace : List Op
  emitted : List ErrorRecord
deriving DecidableEq, Repr

/-- Step 2/3 of the per-item flowchart: the `for` loop over the listed
existing trips. The source iterates `i` over `customerIds` and reads
`toteOlpnPairs[i]`; since `listExtract` produces the two lists in lockstep
the loop is embedded over their zip. Each element is
`(oldOlpn, (currentToteId, currentOlpn))`. Returns
`(tripErrors, existingTripsFailed, trace, emitted)`. -/
def processPairs (env : Env) (timestamp : String) :
    List (String × String × String) → Nat × Bool × List Op × List ErrorRecord
  | [] => (0, false, [], [])
  | (oldOlpn, currentToteId, currentOlpn) :: rest =>
      -- safety check: `if (!currentToteId || !currentOlpn) continue`
      if currentToteId = "" ∨ currentOlpn = "" then
        processPairs env timestamp rest
      else
        match callOp env (Op.endTrip oldOlpn timestamp) with
        | none =>
            match callOp env (Op.endTracking currentToteId currentOlpn) with
            | none =>
                let (e, f, tr, em) := processPairs env timestamp rest
                (e, f, Op.endTrip oldOlpn timestamp ::
                  Op.endTracking currentToteId currentOlpn :: tr, em)
            | some (err, em2) =>
                let wem := logWorkflowError (CaughtError.chorus err)
                  { toteId := some currentToteId, olpn := some currentOlpn,
                    step := some ("Process Existing Trip") }
                let (e, _f, tr, em) := processPairs env timestamp rest
                (e + 1, true, Op.endTrip oldOlpn timestamp ::
                  Op.endTracking currentToteId currentOlpn :: tr, em2 ++ wem ++ em)
        | some (err, em1) =>
            -- status-update failure: skip EndTracking for this pair, continue
            let wem := logWorkflowError (CaughtError.chorus err)
              { toteId := some currentToteId, olpn := some currentOlpn,
                step := some ("Process Existing Trip") }
            let (e, _f, tr, em) := processPairs env timestamp rest
            (e + 1, true, Op.endTrip oldOlpn timestamp :: tr, em1 ++ wem ++ em)

/-- The operations `processPairs` attempts for a single existing pair:
nothing when the safety check skips it, only CompleteItem when that call
fails, otherwise CompleteItem followed by EndTracking. Used to state the
ordering property of the loop. -/
def pairOps (env : Env) (timestamp : String) (p : String × String × String) : List Op :=
  if p.2.1 = "" ∨ p.2.2 = "" then []
  else
    match env.outcome (Op.endTrip p.1 timestamp) with
    | some _ => [Op.endTrip p.1 timestamp]
    | none => [Op.endTrip p.1 timestamp, Op.endTracking p.2.1 p.2.2]

/-- The per-item handler (`processTripData` closure of
`executeTripWorkflow`): List, the existing-pairs loop, the
`customerIds.length === 0 || !existingTripsFailed` gate, then
Create / StartTracking / UpdateToInTransit, each failure logged via
`logWorkflowError` and ending the item. A List failure reaches the item's
outer `catch`, which logs with step "Process Trip Data" and returns
`errors: 1`. -/
def processTripData (env : Env) (td : TripData) : ItemOutcome :=
  match listAllTripsInTransit env td.toteId with
  | Except.error (err, em) =>
      let wem := logWorkflowError (CaughtError.chorus err)
        { toteId := some td.toteId, olpn := some td.olpn, step := some ("Process Trip Data") }
      { success := false, errors := 1, trace := [Op.list td.toteId], emitted := em ++ wem }
  | Except.ok (customerIds, toteOlpnPairs) =>
      let (tripErrors, existingTripsFailed, ptr, pem) :=
        processPairs env td.timestamp (customerIds.zip toteOlpnPairs)
      if customerIds.length == 0 || !existingTripsFailed then
        match callOp env (Op.createTrip td.olpn td.timestamp) with
        | some (err, em) =>
            let wem := logWorkflowError (CaughtError.chorus err)
              { toteId := some td.toteId, olpn := some td.olpn, step := some ("Create New Trip") }
            { success := false, errors := tripErrors + 1,
              trace := Op.list td.toteId :: ptr ++ [Op.createTrip td.olpn td.timestamp],
              emitted := pem ++ em ++ wem }
        | none =>
            match callOp env (Op.startTracking td.toteId td.olpn) with
            | some (err, em) =>
                let wem := logWorkflowError (CaughtError.chorus err)
                  { toteId := some td.toteId, olpn := some td.olpn, step := some ("Start Tracking") }
                { success := false, errors := tripErrors + 1,
                  trace := Op.list td.toteId :: ptr ++
                    [Op.createTrip td.olpn td.timestamp, Op.startTracking td.toteId td.olpn],
                  emitted := pem ++ em ++ wem }
            | none =>
                match callOp env (Op.updateInTransit td.olpn td.timestamp) with
                | some (err, em) =>
                    let wem := logWorkflowError (CaughtError.chorus err)
                      { toteId := some td.toteId, olpn := some td.olpn,
                        step := some ("Update Trip Status") }
                    { success := false, errors := tripErrors + 1,
                      trace := Op.list td.toteId :: ptr ++
                        [Op.createTrip td.olpn td.timestamp,
                         Op.startTracking td.toteId td.olpn,
                         Op.updateInTransit td.olpn td.timestamp],
                      emitted := pem ++ em ++ wem }
                | none =>
                    { success := tripErrors == 0, errors := tripErrors,
                      trace := Op.list td.toteId :: ptr ++
                        [Op.createTrip td.olpn td.timestamp,
                         Op.startTracking td.toteId td.olpn,
                         Op.updateInTransit td.olpn td.timestamp],
                      emitted := pem }
      else
        -- Step 4 skipped due to existing trip processing failures
        { success := false, errors := tripErrors,
          trace := Op.list td.toteId :: ptr, emitted := pem }

/-- The existing-pair portion of an item's trace, for stating ordering. -/
def pairsTraceOf (env : Env) (td : TripData) : List Op :=
  match listAllTripsInTransit env td.toteId with
  | Except.error _ => []
  | Except.ok (customerIds, toteOlpnPairs) =>
      (customerIds.zip toteOlpnPairs).flatMap (pairOps env td.timestamp)

/-! ### Batch sequencing and the workflow entry -/

/-- Sort key: `new Date(td.timestamp).getTime()` (0 stands for the NaN of
an unparseable timestamp, whose order the JS engine does not specify). -/
def timeKey (parse : String → Option Int) (td : TripData) : Int :=
  (parse td.timestamp).getD 0

/-- The comparator `(a, b) => ta - tb` as the total preorder it induces. -/
def sortLE (parse : String → Option Int) (a b : TripData) : Prop :=
  timeKey parse a ≤ timeKey parse b

instance (parse : String → Option Int) : DecidableRel (sortLE parse) :=
  fun a b => inferInstanceAs (Decidable (timeKey parse a ≤ timeKey parse b))

instance (parse : String → Option Int) : IsTotal TripData (sortLE parse) :=
  ⟨fun a b => le_total (timeKey parse a) (timeKey parse b)⟩

instance (parse : String → Option Int) : IsTrans TripData (sortLE parse) :=
  ⟨fun _ _ _ hab hbc => le_trans hab hbc⟩

/-- `[...tripDataArray].sort((a, b) => ... - ...)`: the stable ascending
sort by timestamp. -/
def sortTripData (parse : String → Option Int) (tripDataArray : List TripData) : List TripData :=
  List.insertionSort (sortLE parse) tripDataArray

/-- The caller-visible value of `tripDataArray` after the sort statement:
the source spreads the array first, so JS `sort` mutates only the copy. -/
def tripDataArrayAfterSort (parse : String → Option Int)
    (tripDataArray : List TripData) : List TripData :=
  let _sortedCopy := sortTripData parse tripDataArray
  tripDataArray

/-- The run summary of `WorkflowResult`. -/
structure WorkflowSummary where
  totalTripData : Nat
  processed : Nat
  errors : Nat
deriving DecidableEq, Repr

/-- The value resolved by `executeTripWorkflow` (its `data` string is the
textual join of the per-item logs; the structured `itemResults` stand in
for it). -/
structure WorkflowResult where
  success : Bool
  summary : WorkflowSummary
  itemResults : List ItemOutcome
deriving DecidableEq, Repr

/-- `executeTripWorkflow`: sort, process every entry sequentially
(accumulating `totalProcessed`/`totalErrors`), and return the summary with
`success: totalErrors === 0`. The per-item handler absorbs every remote
failure, so the top-level catch of the source is unreachable in this
model. -/
def executeTripWorkflow (parse : String → Option Int) (env : Env)
    (tripDataArray : List TripData) : WorkflowResult :=
  let sortedTripData := sortTripData parse tripDataArray
  let results := sortedTripData.map fun td => processTripData env td
  let totalProcessed := (results.filter fun r => r.success).length
  let totalErrors := (results.map fun r => r.errors).sum
  { success := totalErrors == 0,
    summary := { totalTripData := sortedTripData.length,
                 processed := totalProcessed, errors := totalErrors },
    itemResults := results }

/-! ### Controller (`POST /chorus/process-data`) -/

/-- The per-entry validation loop of `ChorusController.executeTripWorkflow`:
a missing (falsy) `toteId`/`olpn`/`timestamp` or an unparseable timestamp
at index `i` raises a BAD_REQUEST `HttpException` with the given message. -/
def validateItems (parse : String → Option Int) : List TripData → Nat → Option String
  | [], _ => none
  | td :: rest, i =>
      if td.toteId = "" ∨ td.olpn = "" ∨ td.timestamp = "" then
        some ("Invalid trip data at index " ++ toString i ++
          ": toteId, olpn, and timestamp are required")
      else if (parse td.timestamp).isNone then
        some ("Invalid timestamp format at index " ++ toString i ++ ": " ++ td.timestamp)
      else validateItems parse rest (i + 1)

/-- Full input validation of the controller: empty batches are rejected,
then each entry is checked in order. `none` means the request is accepted. -/
def validateTripData (parse : String → Option Int) (tripData : List TripData) : Option String :=
  if tripData.length == 0 then
    some ("Invalid request: tripData must be a non-empty array")
  else validateItems parse tripData 0

/-- The JSON body the controller returns for an accepted batch. -/
structure ControllerAck where
  success : Bool
  data : String
deriving DecidableEq, Repr

/-- The HTTP handler for `POST /chorus/process-data`: after validation it
sorts the batch and calls `this.chorusApiService.executeTripWorkflow(...)`
WITHOUT `await`, returning a fixed acknowledgment immediately. The pair
returned here is (the HTTP response, the result the detached background
run eventually produces); the source's response contains only the first
component. -/
def processDataEndpoint (parse : String → Option Int) (env : Env)
    (tripData : List TripData) : Except String (ControllerAck × WorkflowResult) :=
  match validateTripData parse tripData with
  | some msg => Except.error msg
  | none =>
      let sortedTripData := sortTripData parse tripData
      let background := executeTripWorkflow parse env sortedTripData
      Except.ok ({ success := true, data := "Trip workflow executed successfully" }, background)

/-- The credential environment read by the `ChorusApiService` constructor
(`none` models an unset environment variable). -/
structure ServiceConfig where
  projectId : Option String
  clientEmail : Option String
  privateKeyId : Option String
  privateKeyPem : Option String
deriving DecidableEq, Repr

/-- The constructor guard `if (!this.CLIENT_EMAIL || !this.PRIVATE_KEY_PEM
|| !this.PROJECT_ID) throw ...` (falsy = unset or empty). -/
def constructorThrows (cfg : ServiceConfig) : Bool :=
  !jsTruthy cfg.clientEmail || !jsTruthy cfg.privateKeyPem || !jsTruthy cfg.projectId

/-- The two ways `submitBatch` can throw. -/
inductive SubmitError where
  | configuration (msg : String)
  | validation (msg : String)
deriving DecidableEq, Repr

/-- `submitBatch` as §6 of the spec names the entry point: the service can
only exist if its constructor accepted the credentials; a request is then
validated by the controller and, when accepted, the whole batch is run by
`executeTripWorkflow`. -/
def submitBatch (cfg : ServiceConfig) (parse : String → Option Int) (env : Env)
    (tripData : List TripData) : Except SubmitError WorkflowResult :=
  if constructorThrows cfg then
    Except.error (SubmitError.configuration
      ("Service account credentials are not configured for Chorus API."))
  else
    match validateTripData parse tripData with
    | some msg => Except.error (SubmitError.validation msg)
    | none => Except.ok (executeTripWorkflow parse env tripData)

/-! ### Token manager -/

/-- `TOKEN_VALIDITY_SECONDS = 3600` (1 hour). -/
def TOKEN_VALIDITY_SECONDS : Int := 3600

/-- `REFRESH_BUFFER_SECONDS = 300` (5 minutes). -/
def REFRESH_BUFFER_SECONDS : Int := 300

/-- The token cache fields of the service: `currentToken` (initially null)
and `tokenExpirationTime` (ms since epoch, initially 0). -/
structure TokenState where
  currentToken : Option String
  tokenExpirationTime : Int
deriving DecidableEq, Repr

/-- `getAuthHeader` at instant `now` (ms since epoch): refresh when no
token is cached or `now >= tokenExpirationTime - REFRESH_BUFFER_SECONDS *
1000`, otherwise serve the cached token. `mint now` is the JWT
`createJwtToken` signs at `now` (self-contained, no remote call). Returns
(header, new state, whether the minting routine ran). -/
def getAuthHeader (mint : Int → String) (now : Int) (st : TokenState) :
    String × TokenState × Bool :=
  if st.currentToken.isNone || decide (st.tokenExpirationTime - REFRESH_BUFFER_SECONDS * 1000 ≤ now) then
    let tok := mint now
    ("Bearer " ++ tok,
     { currentToken := some tok,
       tokenExpirationTime := now + TOKEN_VALIDITY_SECONDS * 1000 }, true)
  else
    ("Bearer " ++ st.currentToken.getD (""), st, false)

/-! ### Error-log retention (`ErrorLogService.deleteOldLogs`) -/

/-- A stored audit row as retention sees it: its creation timestamp
(ms since epoch). -/
structure StoredLog where
  id : Nat
  timestamp : Int
deriving DecidableEq, Repr

/-- `DELETE ... WHERE timestamp < :cutoffDate` over the store, returning
`(affected, remaining rows)`. -/
def runDelete (cutoffDate : Int) : List StoredLog → Nat × List StoredLog
  | [] => (0, [])
  | r :: rest =>
      let (n, keep) := runDelete cutoffDate rest
      if r.timestamp < cutoffDate then (n + 1, keep) else (n, r :: keep)

/-- `deleteOldLogs(daysOld)` at instant `now`: the cutoff is `daysOld`
days before `now` (the source's `setDate(getDate() - daysOld)`, which is
`daysOld` · 24h in this civil-time-free model), and the result is
`result.affected || 0`. -/
def deleteOldLogs (now : Int) (daysOld : Nat) (store : List StoredLog) : Nat × List StoredLog :=
  let cutoffDate := now - (daysOld : Int) * 86400000
  runDelete cutoffDate store

/-! ### Concrete instances used by the C1 exhibit -/

/-- A one-item batch (Scenario A/B of the spec). -/
def c1Batch : List TripData :=
  [{ toteId := "T1364ME", olpn := "O1", timestamp := "2025-01-01T00:00:01Z" }]

/-- A `Date.parse` model for the timestamps appearing in `c1Batch`. -/
def c1Parse : String → Option Int :=
  fun s => if s = "2025-01-01T00:00:01Z" then some 1735689601000 else none

/-- An environment where Create fails with HTTP 500 (Scenario B) and every
other call succeeds; List finds no existing trips. -/
def c1Env : Env where
  outcome := fun op =>
    match op with
    | Op.createTrip _ _ => some { kind := FailureKind.http 500 ("boom"), dbOk := true }
    | _ => none
  listTrips := fun _ => none

/-- An environment where the List call itself fails (HTTP 500, audit write
succeeding). -/
def wEnvListFails : Env where
  outcome := fun op =>
    match op with
    | Op.list _ => some { kind := FailureKind.http 500 ("x"), dbOk := true }
    | _ => none
  listTrips := fun _ => none

/-- An environment where List finds one trip "P1" and the CompleteItem
(endTrip) call fails; everything else succeeds. -/
def wEnvEndTripFails : Env where
  outcome := fun op =>
    match op with
    | Op.endTrip _ _ => some { kind := FailureKind.http 500 ("x"), dbOk := true }
    | _ => none
  listTrips := fun _ => some [{ customerId := some ("P1") }]

/-- An environment where every call succeeds and List finds nothing. -/
def wEnvAllOk : Env where
  outcome := fun _ => none
  listTrips := fun _ => none

/-- A `Date.parse` model for the three-letter timestamps of `wBatch`. -/
def wParse : String → Option Int :=
  fun s => if s = "ta" then some 1 else if s = "tb" then some 2 else
    if s = "tc" then some 1 else none

/-- A small out-of-order batch (two items share the key of `"ta"`/`"tc"`). -/
def wBatch : List TripData :=
  [{ toteId := "T2", olpn := "O2", timestamp := "tb" },
   { toteId := "T1", olpn := "O1", timestamp := "ta" },
   { toteId := "T3", olpn := "O3", timestamp := "tc" }]

/-- A fully-populated credential configuration. -/
def wCfg : ServiceConfig :=
  { projectId := some ("p"), clientEmail := some ("e"),
    privateKeyId := some ("k"), privateKeyPem := some ("pem") }

/-- A two-row audit store straddling a 30-day cutoff at `now = 2592000100`
(cutoff 100): one row older, one row newer. -/
def wStore : List StoredLog :=
  [{ id := 1, timestamp := 50 }, { id := 2, timestamp := 100 }]

/-- A List response with a whitespace-only, a real, and a missing
customerId. -/
def wTrips : List RawTrip :=
  [{ customerId := some (" ") }, { customerId := some ("A") }, { customerId := none }]

/-- Is an operation one of the existing-pair sub-steps (CompleteItem /
EndTracking)? -/
def Op.isSub : Op → Bool
  | Op.endTrip _ _ => true
  | Op.endTracking _ _ => true
  | _ => false

/-- Is an operation one of steps 4–6 (Create / StartTracking /
Transition)? -/
def Op.isTail : Op → Bool
  | Op.createTrip _ _ => true
  | Op.startTracking _ _ => true
  | Op.updateInTransit _ _ => true
  | _ => false

/-! ### Lemmas about the embedding -/

theorem collectTrips_eq (toteId : String) (trips : List RawTrip) :
    collectTrips toteId trips =
      ((trips.filterMap fun t => t.customerId.bind fun c =>
          if jsTrim c = "" then none else some c),
       ((trips.filterMap fun t => t.customerId.bind fun c =>
          if jsTrim c = "" then none else some c).map fun c => (toteId, c))) := by
  induction trips with
  | nil => rfl
  | cons trip rest ih =>
      simp only [collectTrips, ih, List.filterMap_cons]
      cases trip.customerId with
      | none => simp
      | some cid =>
          by_cases h : jsTrim cid = "" <;> simp [h, Option.bind]

theorem processPairs_trace_isSub (env : Env) (timestamp : String)
    (l : List (String × String × String)) :
    ∀ op ∈ (processPairs env timestamp l).2.2.1, op.isSub = true := by
  induction l with
  | nil => intro op h; simp [processPairs] at h
  | cons p rest ih =>
      obtain ⟨oldOlpn, currentToteId, currentOlpn⟩ := p
      intro op hop
      simp only [processPairs] at hop
      split at hop
      · exact ih op hop
      · split at hop
        · split at hop
          · simp only [List.mem_cons] at hop
            rcases hop with rfl | rfl | hop
            · rfl
            · rfl
            · exact ih op hop
          · simp only [List.mem_cons] at hop
            rcases hop with rfl | rfl | hop
            · rfl
            · rfl
            · exact ih op hop
        · simp only [List.mem_cons] at hop
          rcases hop with rfl | hop
          · rfl
          · exact ih op hop

theorem processPairs_failed_pos (env : Env) (timestamp : String)
    (l : List (String × String × String))
    (h : (processPairs env timestamp l).2.1 = true) :
    1 ≤ (processPairs env timestamp l).1 := by
  induction l with
  | nil => simp [processPairs] at h
  | cons p rest ih =>
      obtain ⟨oldOlpn, currentToteId, currentOlpn⟩ := p
      by_cases hskip : currentToteId = "" ∨ currentOlpn = ""
      · simp only [processPairs, if_pos hskip] at h ⊢
        exact ih h
      · simp only [processPairs, if_neg hskip] at h ⊢
        cases hcall : callOp env (Op.endTrip oldOlpn timestamp) with
        | none =>
            simp only [hcall] at h ⊢
            cases hcall2 : callOp env (Op.endTracking currentToteId currentOlpn) with
            | none =>
                simp only [hcall2] at h ⊢
                exact ih h
            | some fe =>
                obtain ⟨err, em⟩ := fe
                simp [hcall2]
        | some fe =>
            obtain ⟨err, em⟩ := fe
            simp [hcall]

theorem processPairs_failed_of_mem (env : Env) (timestamp : String)
    (l : List (String × String × String)) (op : Op)
    (hop : op ∈ (processPairs env timestamp l).2.2.1)
    (hfail : (env.outcome op).isSome) :
    (processPairs env timestamp l).2.1 = true := by
  induction l with
  | nil => simp [processPairs] at hop
  | cons p rest ih =>
      obtain ⟨oldOlpn, currentToteId, currentOlpn⟩ := p
      by_cases hskip : currentToteId = "" ∨ currentOlpn = ""
      · simp only [processPairs, if_pos hskip] at hop ⊢
        exact ih hop
      · simp only [processPairs, if_neg hskip] at hop ⊢
        cases hcall : callOp env (Op.endTrip oldOlpn timestamp) with
        | none =>
            simp only [hcall] at hop ⊢
            cases hcall2 : callOp env (Op.endTracking currentToteId currentOlpn) with
            | none =>
                simp only [hcall2] at hop ⊢
                simp only [List.mem_cons] at hop
                rcases hop with rfl | rfl | hop
                · exfalso
                  cases h : env.outcome (Op.endTrip oldOlpn timestamp) with
                  | none => simp [h] at hfail
                  | some f => simp [callOp, h] at hcall
                · exfalso
                  cases h : env.outcome (Op.endTracking currentToteId currentOlpn) with
                  | none => simp [h] at hfail
                  | some f => simp [callOp, h] at hcall2
                · exact ih hop
            | some fe =>
                obtain ⟨err, em⟩ := fe
                simp [hcall2]
        | some fe =>
            obtain ⟨err, em⟩ := fe
            simp [hcall]

theorem processPairs_trace_eq_flatMap (env : Env) (timestamp : String)
    (l : List (String × String × String)) :
    (processPairs env timestamp l).2.2.1 = l.flatMap (pairOps env timestamp) := by
  induction l with
  | nil => rfl
  | cons p rest ih =>
      obtain ⟨oldOlpn, currentToteId, currentOlpn⟩ := p
      simp only [processPairs, List.flatMap_cons, pairOps]
      split
      · simp [ih]
      · cases hcall : callOp env (Op.endTrip oldOlpn timestamp) with
        | none =>
            have houtcome : env.outcome (Op.endTrip oldOlpn timestamp) = none := by
              cases h : env.outcome (Op.endTrip oldOlpn timestamp) with
              | none => rfl
              | some f => simp [callOp, h] at hcall
            cases hcall2 : callOp env (Op.endTracking currentToteId currentOlpn) with
            | none => simp [hcall2, houtcome, ih]
            | some fe =>
                obtain ⟨err, em⟩ := fe
                simp [hcall2, houtcome, ih]
        | some fe =>
            obtain ⟨err, em⟩ := fe
            have houtcome : ∃ f, env.outcome (Op.endTrip oldOlpn timestamp) = some f := by
              cases h : env.outcome (Op.endTrip oldOlpn timestamp) with
              | none => simp [callOp, h] at hcall
              | some f => exact ⟨f, rfl⟩
            obtain ⟨f, houtcome⟩ := houtcome
            simp [houtcome, ih]

theorem processTripData_success_iff (env : Env) (td : TripData) :
    (processTripData env td).success = ((processTripData env td).errors == 0) := by
  unfold processTripData
  cases hl : listAllTripsInTransit env td.toteId with
  | error fe =>
      obtain ⟨err, em⟩ := fe
      simp
  | ok pr =>
      obtain ⟨customerIds, toteOlpnPairs⟩ := pr
      cases hg : (customerIds.length == 0 ||
          !(processPairs env td.timestamp (customerIds.zip toteOlpnPairs)).2.1) with
      | true =>
          simp only [hg, if_true]
          cases hc1 : callOp env (Op.createTrip td.olpn td.timestamp) with
          | some fe => obtain ⟨err, em⟩ := fe; simp
          | none =>
              cases hc2 : callOp env (Op.startTracking td.toteId td.olpn) with
              | some fe => obtain ⟨err, em⟩ := fe; simp
              | none =>
                  cases hc3 : callOp env (Op.updateInTransit td.olpn td.timestamp) with
                  | some fe => obtain ⟨err, em⟩ := fe; simp
                  | none => simp
      | false =>
          simp only [hg, if_false]
          have hfail : (processPairs env td.timestamp (customerIds.zip toteOlpnPairs)).2.1 = true := by
            simp only [Bool.or_eq_false_iff, Bool.not_eq_false'] at hg
            exact hg.2
          have hpos := processPairs_failed_pos env td.timestamp (customerIds.zip toteOlpnPairs) hfail
          cases h0 : (processPairs env td.timestamp (customerIds.zip toteOlpnPairs)).1 with
          | zero => omega
          | succ n => simp

theorem processTripData_trace_shape (env : Env) (td : TripData) :
    ∃ k, (processTripData env td).trace =
      Op.list td.toteId :: pairsTraceOf env td ++
        ([Op.createTrip td.olpn td.timestamp, Op.startTracking td.toteId td.olpn,
          Op.updateInTransit td.olpn td.timestamp].take k) := by
  unfold processTripData pairsTraceOf
  cases hl : listAllTripsInTransit env td.toteId with
  | error fe =>
      obtain ⟨err, em⟩ := fe
      exact ⟨0, by simp⟩
  | ok pr =>
      obtain ⟨customerIds, toteOlpnPairs⟩ := pr
      cases hg : (customerIds.length == 0 ||
          !(processPairs env td.timestamp (customerIds.zip toteOlpnPairs)).2.1) with
      | true =>
          simp only [hg, if_true]
          cases hc1 : callOp env (Op.createTrip td.olpn td.timestamp) with
          | some fe =>
              obtain ⟨err, em⟩ := fe
              exact ⟨1, by simp [processPairs_trace_eq_flatMap]⟩
          | none =>
              cases hc2 : callOp env (Op.startTracking td.toteId td.olpn) with
              | some fe =>
                  obtain ⟨err, em⟩ := fe
                  exact ⟨2, by simp [processPairs_trace_eq_flatMap]⟩
              | none =>
                  cases hc3 : callOp env (Op.updateInTransit td.olpn td.timestamp) with
                  | some fe =>
                      obtain ⟨err, em⟩ := fe
                      exact ⟨3, by simp [processPairs_trace_eq_flatMap]⟩
                  | none => exact ⟨3, by simp [processPairs_trace_eq_flatMap]⟩
      | false =>
          simp only [hg, if_false]
          exact ⟨0, by simp [processPairs_trace_eq_flatMap]⟩

theorem processTripData_trace_ne_nil (env : Env) (td : TripData) :
    (processTripData env td).trace ≠ [] := by
  obtain ⟨k, hk⟩ := processTripData_trace_shape env td
  simp [hk]

theorem count_summary (l : List ItemOutcome)
    (h : ∀ r ∈ l, r.success = (r.errors == 0)) :
    (l.filter fun r => r.success).length +
      (l.filter fun r => decide (1 ≤ r.errors)).length = l.length := by
  induction l with
  | nil => simp
  | cons r rest ih =>
      have hr := h r (List.mem_cons_self r rest)
      have hrest := ih fun x hx => h x (List.mem_cons_of_mem _ hx)
      by_cases hs : r.success = true
      · have herr : r.errors = 0 := by
          rw [hs] at hr
          simpa using hr.symm
        simp only [List.filter_cons, hs, herr]
        rw [if_pos trivial, if_neg (by simp)]
        simp only [List.length_cons]
        omega
      · have hsf : r.success = false := by
          cases hx : r.success
          · rfl
          · exact absurd hx hs
        have herr : r.errors ≠ 0 := by
          rw [hsf] at hr
          intro h0
          rw [h0] at hr
          simp at hr
        have hcond : decide (1 ≤ r.errors) = true := by
          simp [Nat.one_le_iff_ne_zero, herr]
        simp only [List.filter_cons, hsf]
        rw [if_neg (by simp), if_pos hcond]
        simp only [List.length_cons]
        omega

theorem sortTripData_filter_key (parse : String → Option Int)
    (items : List TripData) (k : Int) :
    (sortTripData parse items).filter (fun td => timeKey parse td == k)
      = items.filter (fun td => timeKey parse td == k) := by
  have hall : ∀ a ∈ items.filter (fun td => timeKey parse td == k),
      (timeKey parse a == k) = true := fun a ha => by
    simpa using (List.mem_filter.mp ha).2
  have hpw : (items.filter (fun td => timeKey parse td == k)).Pairwise (sortLE parse) := by
    apply List.pairwise_of_forall_mem_list
    intro a ha b hb
    have hka : timeKey parse a = k := by simpa using hall a ha
    have hkb : timeKey parse b = k := by simpa using hall b hb
    exact le_of_eq (hka.trans hkb.symm)
  have hsub : List.Sublist (items.filter (fun td => timeKey parse td == k))
      (sortTripData parse items) :=
    List.sublist_insertionSort hpw (List.filter_sublist items)
  have hsub2 : List.Sublist (items.filter (fun td => timeKey parse td == k))
      ((sortTripData parse items).filter (fun td => timeKey parse td == k)) := by
    have hts := hsub.filter (fun td => timeKey parse td == k)
    rwa [List.filter_eq_self.mpr hall] at hts
  have hperm : List.Perm
      ((sortTripData parse items).filter (fun td => timeKey parse td == k))
      (items.filter (fun td => timeKey parse td == k)) :=
    (List.perm_insertionSort (sortLE parse) items).filter _
  exact (hsub2.eq_of_length hperm.length_eq.symm).symm

theorem runDelete_snd (cutoffDate : Int) (store : List StoredLog) :
    (runDelete cutoffDate store).2
      = store.filter fun r => decide (cutoffDate ≤ r.timestamp) := by
  induction store with
  | nil => rfl
  | cons r rest ih =>
      simp only [runDelete]
      by_cases h : r.timestamp < cutoffDate
      · rw [if_pos h]
        have hdec : decide (cutoffDate ≤ r.timestamp) = false := by
          simp [not_le.mpr h]
        simp [List.filter_cons, hdec, ih]
      · rw [if_neg h]
        have hdec : decide (cutoffDate ≤ r.timestamp) = true := by
          simp [le_of_not_lt h]
        simp [List.filter_cons, hdec, ih]

theorem runDelete_fst (cutoffDate : Int) (store : List StoredLog) :
    (runDelete cutoffDate store).1
      = store.countP fun r => decide (r.timestamp < cutoffDate) := by
  induction store with
  | nil => rfl
  | cons r rest ih =>
      simp only [runDelete, List.countP_cons]
      by_cases h : r.timestamp < cutoffDate
      · rw [if_pos h]
        simp [h, ih]
      · rw [if_neg h]
        simp [h, ih]

/-- C9: retention cleanup deletes exactly the records whose timestamp lies
before `now` minus `daysOld` days, returns the exact number deleted, keeps
every newer record (in order), and an immediate re-run with the same
`daysOld` deletes nothing and returns 0. -/
theorem C9_retention_cleanup (now : Int) (daysOld : Nat) (store : List StoredLog) :
    (deleteOldLogs now daysOld store).2
        = store.filter (fun r => decide (now - (daysOld : Int) * 86400000 ≤ r.timestamp))
  ∧ (deleteOldLogs now daysOld store).1
        = store.countP (fun r => decide (r.timestamp < now - (daysOld : Int) * 86400000))
  ∧ deleteOldLogs now daysOld (deleteOldLogs now daysOld store).2
        = (0, (deleteOldLogs now daysOld store).2) := by
  refine ⟨runDelete_snd _ _, runDelete_fst _ _, ?_⟩
  have hsnd := runDelete_snd (now - (daysOld : Int) * 86400000) store
  have hmem : ∀ r ∈ (deleteOldLogs now daysOld store).2,
      now - (daysOld : Int) * 86400000 ≤ r.timestamp := by
    intro r hr
    rw [show (deleteOldLogs now daysOld store).2
        = (runDelete (now - (daysOld : Int) * 86400000) store).2 from rfl, hsnd] at hr
    simpa using (List.mem_filter.mp hr).2
  have h1 : (deleteOldLogs now daysOld (deleteOldLogs now daysOld store).2).1 = 0 := by
    rw [show (deleteOldLogs now daysOld (deleteOldLogs now daysOld store).2).1
        = (runDelete (now - (daysOld : Int) * 86400000) (deleteOldLogs now daysOld store).2).1
        from rfl, runDelete_fst]
    rw [List.countP_eq_zero]
    intro r hr
    simpa using not_lt.mpr (hmem r hr)
  have h2 : (deleteOldLogs now daysOld (deleteOldLogs now daysOld store).2).2
      = (deleteOldLogs now daysOld store).2 := by
    rw [show (deleteOldLogs now daysOld (deleteOldLogs now daysOld store).2).2
        = (runDelete (now - (daysOld : Int) * 86400000) (deleteOldLogs now daysOld store).2).2
        from rfl, runDelete_snd]
    rw [List.filter_eq_self]
    intro r hr
    simpa using hmem r hr
  exact Prod.ext h1 h2

/-- C10: for every List response, `listAllTripsInTransit` keeps
`customerIds` and `toteOlpnPairs` in lockstep: the pairs are exactly the
customerIds paired with the queried toteId (same length, i-th pair =
(toteId, customerIds[i])), every kept customerId is non-empty after
trimming, and trips with a missing or whitespace-only customerId are
excluded from both lists (the filterMap equation). -/
theorem C10_list_extraction_invariants (toteId : String) (tripsField : Option (List RawTrip)) :
    (listExtract toteId tripsField).1
        = (tripsField.getD []).filterMap (fun t => t.customerId.bind fun c =>
            if jsTrim c = "" then none else some c)
  ∧ (listExtract toteId tripsField).2
        = (listExtract toteId tripsField).1.map (fun c => (toteId, c))
  ∧ (listExtract toteId tripsField).2.length = (listExtract toteId tripsField).1.length
  ∧ (∀ c ∈ (listExtract toteId tripsField).1, jsTrim c ≠ "")
  ∧ (∀ p ∈ (listExtract toteId tripsField).2, p.1 = toteId)
  ∧ ∀ i : Nat, (listExtract toteId tripsField).2[i]?
        = ((listExtract toteId tripsField).1[i]?).map (fun c => (toteId, c)) := by
  have hmain : (listExtract toteId tripsField).1
        = (tripsField.getD []).filterMap (fun t => t.customerId.bind fun c =>
            if jsTrim c = "" then none else some c)
     ∧ (listExtract toteId tripsField).2
        = (listExtract toteId tripsField).1.map (fun c => (toteId, c)) := by
    cases tripsField with
    | none => simp [listExtract]
    | some trips =>
        have h := collectTrips_eq toteId trips
        constructor
        · rw [show (listExtract toteId (some trips)).1 = (collectTrips toteId trips).1 from rfl, h]
          rfl
        · rw [show (listExtract toteId (some trips)).2 = (collectTrips toteId trips).2 from rfl,
            show (listExtract toteId (some trips)).1 = (collectTrips toteId trips).1 from rfl, h]
  obtain ⟨h1, h2⟩ := hmain
  refine ⟨h1, h2, by rw [h2]; simp, ?_, ?_, ?_⟩
  · intro c hc
    rw [h1] at hc
    obtain ⟨t, _ht, hft⟩ := List.mem_filterMap.mp hc
    obtain ⟨c0, _hc0, hif⟩ := Option.bind_eq_some.mp hft
    by_cases hz : jsTrim c0 = ""
    · rw [if_pos hz] at hif
      exact absurd hif (by simp)
    · rw [if_neg hz] at hif
      obtain rfl : c0 = c := by simpa using hif
      exact hz
  · intro p hp
    rw [h2] at hp
    obtain ⟨c, _hc, rfl⟩ := List.mem_map.mp hp
    rfl
  · intro i
    rw [h2]
    simp

/-- C7: with a credential minted at `t0` (expiry `t0` + 1h), any call
strictly before `t0` + 55min (= expiry − 5min buffer) returns the identical
cached header and leaves the state untouched without minting — so two calls
in that window share the credential and the minting routine runs zero
further times; and any call with no cached token or at/past the threshold
mints a fresh credential whose expiry is 1 hour from that call. -/
theorem C7_token_reuse_window (mint : Int → String) (t0 now1 now2 : Int) (tok : String)
    (st : TokenState)
    (hTok : st.currentToken = some tok)
    (hExp : st.tokenExpirationTime = t0 + TOKEN_VALIDITY_SECONDS * 1000)
    (h1 : now1 < t0 + 3300000) (h2 : now2 < t0 + 3300000) :
    getAuthHeader mint now1 st = ("Bearer " ++ tok, st, false)
  ∧ getAuthHeader mint now2 st = ("Bearer " ++ tok, st, false)
  ∧ ∀ (m : Int → String) (n : Int) (s : TokenState),
      (s.currentToken = none ∨ s.tokenExpirationTime - REFRESH_BUFFER_SECONDS * 1000 ≤ n) →
      getAuthHeader m n s = ("Bearer " ++ m n,
        { currentToken := some (m n),
          tokenExpirationTime := n + TOKEN_VALIDITY_SECONDS * 1000 }, true) := by
  refine ⟨?_, ?_, ?_⟩
  · have hc : (st.currentToken.isNone ||
        decide (st.tokenExpirationTime - REFRESH_BUFFER_SECONDS * 1000 ≤ now1)) = false := by
      rw [hTok, hExp]
      simp only [Option.isNone_some, Bool.false_or, decide_eq_false_iff_not, not_le]
      simp only [TOKEN_VALIDITY_SECONDS, REFRESH_BUFFER_SECONDS]
      omega
    unfold getAuthHeader
    rw [hc]
    simp [hTok]
  · have hc : (st.currentToken.isNone ||
        decide (st.tokenExpirationTime - REFRESH_BUFFER_SECONDS * 1000 ≤ now2)) = false := by
      rw [hTok, hExp]
      simp only [Option.isNone_some, Bool.false_or, decide_eq_false_iff_not, not_le]
      simp only [TOKEN_VALIDITY_SECONDS, REFRESH_BUFFER_SECONDS]
      omega
    unfold getAuthHeader
    rw [hc]
    simp [hTok]
  · intro m n s hcond
    have hc : (s.currentToken.isNone ||
        decide (s.tokenExpirationTime - REFRESH_BUFFER_SECONDS * 1000 ≤ n)) = true := by
      rcases hcond with h | h
      · simp [h]
      · simp [h]
    unfold getAuthHeader
    rw [hc]
    simp

theorem C7_token_reuse_window_witness :
    getAuthHeader (fun _ => ("M")) 1
        { currentToken := some ("T"), tokenExpirationTime := 3600000 }
      = ("Bearer " ++ "T",
         { currentToken := some ("T"), tokenExpirationTime := 3600000 }, false) :=
  (C7_token_reuse_window (fun _ => ("M")) 0 1 2 ("T")
    { currentToken := some ("T"), tokenExpirationTime := 3600000 }
    rfl (by decide) (by decide) (by decide)).1

/-- C2: for any failing gateway call whose audit-store write succeeds, the
gateway appends exactly one ErrorRecord and marks the thrown error logged;
and `logWorkflowError` — the handler every outer catch site uses — appends
nothing for an error whose logged flag is set. Hence exactly one record
system-wide per failing call. -/
theorem C2_single_error_record (endpoint : String) (payload : Option Payload)
    (f : ApiFailure) (hdb : f.dbOk = true) :
    ((makeApiRequestFail endpoint payload f).2).length = 1
  ∧ (makeApiRequestFail endpoint payload f).1.isLogged = true
  ∧ ∀ (e : ChorusApiError) (ctx : WorkflowContext),
      e.isLogged = true → logWorkflowError (CaughtError.chorus e) ctx = [] := by
  obtain ⟨kind, dbOk⟩ := f
  subst hdb
  refine ⟨?_, ?_, ?_⟩
  · cases kind with
    | http status body => simp [makeApiRequestFail]
    | transport code msg => simp [makeApiRequestFail]
  · cases kind with
    | http status body => simp [makeApiRequestFail]
    | transport code msg => simp [makeApiRequestFail]
  · intro e ctx he
    simp [logWorkflowError, he]

theorem C2_single_error_record_witness :
    ((makeApiRequestFail ("v1alpha1/trips") none
        { kind := FailureKind.http 500 ("x"), dbOk := true }).2).length = 1 :=
  (C2_single_error_record ("v1alpha1/trips") none
    { kind := FailureKind.http 500 ("x"), dbOk := true } rfl).1

theorem makeApiRequestFail_isLogged (endpoint : String) (payload : Option Payload)
    (f : ApiFailure) :
    (makeApiRequestFail endpoint payload f).1.isLogged = f.dbOk := by
  obtain ⟨kind, dbOk⟩ := f
  cases kind with
  | http status body => cases dbOk <;> simp [makeApiRequestFail]
  | transport code msg => cases dbOk <;> simp [makeApiRequestFail]

theorem makeApiRequestFail_emitted_length (endpoint : String) (payload : Option Payload)
    (f : ApiFailure) :
    ((makeApiRequestFail endpoint payload f).2).length = if f.dbOk then 1 else 0 := by
  obtain ⟨kind, dbOk⟩ := f
  cases kind with
  | http status body => cases dbOk <;> simp [makeApiRequestFail]
  | transport code msg => cases dbOk <;> simp [makeApiRequestFail]

theorem makeApiRequestFail_no_workflow_type (endpoint : String) (payload : Option Payload)
    (f : ApiFailure) :
    ∀ r ∈ (makeApiRequestFail endpoint payload f).2, r.errorType ≠ "WORKFLOW_ERROR" := by
  obtain ⟨kind, dbOk⟩ := f
  cases kind with
  | http status body =>
      cases dbOk
      · simp [makeApiRequestFail]
      · intro r hr
        simp [makeApiRequestFail] at hr
        subst hr
        by_cases ht : isTimeoutError status body = true
        · simp [ht]
        · simp [ht]
  | transport code msg =>
      cases dbOk
      · simp [makeApiRequestFail]
      · intro r hr
        simp [makeApiRequestFail] at hr
        subst hr
        simp

theorem isTail_eq_false_of_isSub (op : Op) (h : op.isSub = true) : op.isTail = false := by
  cases op <;> simp [Op.isSub, Op.isTail] at *

/-- C8: whenever the only exception that can escape an item's inner
handlers — a List-step failure — is thrown, the item's outer catch absorbs
it: the item yields exactly one error, exactly one record is appended for
it (the gateway's record when the gateway logged it, else one
WORKFLOW_ERROR record written by the catch via `logWorkflowError` with
step "Process Trip Data"), and every item of any batch is still
processed. -/
theorem C8_item_exception_caught_once (env : Env) (td : TripData) (f : ApiFailure)
    (hlist : env.outcome (Op.list td.toteId) = some f) :
    (processTripData env td).errors = 1
  ∧ (processTripData env td).success = false
  ∧ ((processTripData env td).emitted).length = 1
  ∧ (f.dbOk = true → ∀ r ∈ (processTripData env td).emitted, r.errorType ≠ "WORKFLOW_ERROR")
  ∧ (f.dbOk = false → ∀ r ∈ (processTripData env td).emitted, r.errorType = "WORKFLOW_ERROR")
  ∧ ∀ (parse : String → Option Int) (items : List TripData),
      ((executeTripWorkflow parse env items).itemResults).length = items.length := by
  have hl : listAllTripsInTransit env td.toteId
      = Except.error (makeApiRequestFail (opEndpoint (Op.list td.toteId))
          (some (opPayload (Op.list td.toteId))) f) := by
    simp [listAllTripsInTransit, callOp, hlist]
  have hptd : processTripData env td
      = { success := false, errors := 1, trace := [Op.list td.toteId],
          emitted := (makeApiRequestFail (opEndpoint (Op.list td.toteId))
              (some (opPayload (Op.list td.toteId))) f).2 ++
            logWorkflowError (CaughtError.chorus
              (makeApiRequestFail (opEndpoint (Op.list td.toteId))
                (some (opPayload (Op.list td.toteId))) f).1)
              { toteId := some td.toteId, olpn := some td.olpn,
                step := some ("Process Trip Data") } } := by
    unfold processTripData
    rw [hl]
  have hlog := makeApiRequestFail_isLogged (opEndpoint (Op.list td.toteId))
    (some (opPayload (Op.list td.toteId))) f
  have hlen := makeApiRequestFail_emitted_length (opEndpoint (Op.list td.toteId))
    (some (opPayload (Op.list td.toteId))) f
  refine ⟨by rw [hptd], by rw [hptd], ?_, ?_, ?_, ?_⟩
  · rw [hptd]
    by_cases hdb : f.dbOk = true
    · rw [hdb] at hlog
      simp [logWorkflowError, hlog, hdb, hlen]
    · have hdbf : f.dbOk = false := by
        cases hx : f.dbOk
        · rfl
        · exact absurd hx hdb
      rw [hdbf] at hlog
      simp [logWorkflowError, hlog, hdbf, hlen]
  · intro hdb r hr
    rw [hptd] at hr
    rw [hdb] at hlog
    simp only [logWorkflowError, hlog, if_true] at hr
    rw [List.append_nil] at hr
    exact makeApiRequestFail_no_workflow_type _ _ _ r hr
  · intro hdb r hr
    rw [hptd] at hr
    rw [hdb] at hlog
    rw [hdb] at hlen
    simp only [logWorkflowError, hlog] at hr
    have hnil : (makeApiRequestFail (opEndpoint (Op.list td.toteId))
        (some (opPayload (Op.list td.toteId))) f).2 = [] := by
      apply List.eq_nil_of_length_eq_zero
      simpa using hlen
    rw [hnil] at hr
    simp at hr
    rw [hr]
  · intro parse items
    simp [executeTripWorkflow, sortTripData]

theorem C8_item_exception_caught_once_witness :
    (processTripData wEnvListFails
      { toteId := "T1", olpn := "O1", timestamp := "ts" }).errors = 1 :=
  (C8_item_exception_caught_once wEnvListFails
    { toteId := "T1", olpn := "O1", timestamp := "ts" }
    { kind := FailureKind.http 500 ("x"), dbOk := true } rfl).1

theorem processTripData_gate_blocked (env : Env) (td : TripData)
    (customerIds : List String) (toteOlpnPairs : List (String × String))
    (hl : listAllTripsInTransit env td.toteId = Except.ok (customerIds, toteOlpnPairs))
    (hg : (customerIds.length == 0 ||
        !(processPairs env td.timestamp (customerIds.zip toteOlpnPairs)).2.1) = false) :
    processTripData env td
      = { success := false,
          errors := (processPairs env td.timestamp (customerIds.zip toteOlpnPairs)).1,
          trace := Op.list td.toteId ::
            (processPairs env td.timestamp (customerIds.zip toteOlpnPairs)).2.2.1,
          emitted := (processPairs env td.timestamp (customerIds.zip toteOlpnPairs)).2.2.2 } := by
  unfold processTripData
  rw [hl]
  rcases hP : processPairs env td.timestamp (customerIds.zip toteOlpnPairs) with ⟨e, f, tr, em⟩
  rw [hP] at hg
  simp only [hP]
  simp only [Bool.or_eq_false_iff] at hg
  obtain ⟨hg1, hg2⟩ := hg
  have hf : f = true := by
    cases f
    · simp at hg2
    · rfl
  subst hf
  simp [hg1]

/-- C3: if any existing-pair sub-step (CompleteItem or EndTracking) that
was actually attempted for an item fails, then no step-4–6 operation
(Create / StartTracking / Transition) appears in that item's trace — the
`existingTripsFailed` gate blocks them — and every item of any batch still
gets processed (one result per item). -/
theorem C3_gate_blocks_tail_steps (parse : String → Option Int) (env : Env) (td : TripData)
    (hfail : ∃ op ∈ (processTripData env td).trace,
      op.isSub = true ∧ (env.outcome op).isSome) :
    (∀ op ∈ (processTripData env td).trace, op.isTail = false)
  ∧ ∀ items : List TripData,
      ((executeTripWorkflow parse env items).itemResults).length = items.length := by
  refine ⟨?_, fun items => by simp [executeTripWorkflow, sortTripData]⟩
  obtain ⟨op, hopmem, hsub, hsome⟩ := hfail
  have hop_ptr : op ∈ pairsTraceOf env td := by
    obtain ⟨k, hk⟩ := processTripData_trace_shape env td
    rw [hk] at hopmem
    rcases List.mem_cons.mp hopmem with heq | hmem
    · rw [heq] at hsub
      simp [Op.isSub] at hsub
    · rcases List.mem_append.mp hmem with h | h
      · exact h
      · exfalso
        have hmem3 := List.take_subset k _ h
        simp only [List.mem_cons, List.mem_singleton] at hmem3
        rcases hmem3 with rfl | rfl | rfl | h3
        · simp [Op.isSub] at hsub
        · simp [Op.isSub] at hsub
        · simp [Op.isSub] at hsub
        · simp at h3
  cases hl : listAllTripsInTransit env td.toteId with
  | error fe =>
      obtain ⟨err, em⟩ := fe
      have hptd : processTripData env td
          = { success := false, errors := 1, trace := [Op.list td.toteId],
              emitted := em ++ logWorkflowError (CaughtError.chorus err)
                { toteId := some td.toteId, olpn := some td.olpn,
                  step := some ("Process Trip Data") } } := by
        unfold processTripData
        rw [hl]
      intro op' hop'
      rw [hptd] at hop'
      simp only [List.mem_singleton] at hop'
      rw [hop']
      rfl
  | ok pr =>
      obtain ⟨customerIds, toteOlpnPairs⟩ := pr
      have hptrace : pairsTraceOf env td
          = (processPairs env td.timestamp (customerIds.zip toteOlpnPairs)).2.2.1 := by
        unfold pairsTraceOf
        rw [hl]
        exact (processPairs_trace_eq_flatMap env td.timestamp _).symm
      rw [hptrace] at hop_ptr
      have hfailedP := processPairs_failed_of_mem env td.timestamp
        (customerIds.zip toteOlpnPairs) op hop_ptr hsome
      have hcids : customerIds ≠ [] := by
        intro h0
        rw [h0] at hop_ptr
        simp [processPairs] at hop_ptr
      have hgate : (customerIds.length == 0 ||
          !(processPairs env td.timestamp (customerIds.zip toteOlpnPairs)).2.1) = false := by
        rw [hfailedP]
        simp [List.length_eq_zero, hcids]
      have hptd := processTripData_gate_blocked env td customerIds toteOlpnPairs hl hgate
      intro op' hop'
      rw [hptd] at hop'
      simp only [List.mem_cons] at hop'
      rcases hop' with heq | h'
      · rw [heq]
        rfl
      · exact isTail_eq_false_of_isSub op'
          (processPairs_trace_isSub env td.timestamp _ op' h')

theorem C3_gate_blocks_tail_steps_witness :
    ((executeTripWorkflow (fun _ => none) wEnvEndTripFails
      [{ toteId := "T1", olpn := "O1", timestamp := "ts" }]).itemResults).length = 1 :=
  (C3_gate_blocks_tail_steps (fun _ => none) wEnvEndTripFails
    { toteId := "T1", olpn := "O1", timestamp := "ts" } (by decide)).2
    [{ toteId := "T1", olpn := "O1", timestamp := "ts" }]

/-- C4: for any batch, every item is attempted (one result per input item,
each with a non-empty operation trace, results following the sorted
order), and `processed` plus the number of items that recorded at least
one step failure equals `totalItems`. -/
theorem C4_continue_on_failure (parse : String → Option Int) (env : Env)
    (items : List TripData) :
    ((executeTripWorkflow parse env items).itemResults).length = items.length
  ∧ (executeTripWorkflow parse env items).itemResults
      = (sortTripData parse items).map (fun td => processTripData env td)
  ∧ (∀ r ∈ (executeTripWorkflow parse env items).itemResults, r.trace ≠ [])
  ∧ (executeTripWorkflow parse env items).summary.processed
      + ((executeTripWorkflow parse env items).itemResults.filter
          (fun r => decide (1 ≤ r.errors))).length
      = (executeTripWorkflow parse env items).summary.totalTripData := by
  refine ⟨by simp [executeTripWorkflow, sortTripData], rfl, ?_, ?_⟩
  · intro r hr
    simp only [executeTripWorkflow, List.mem_map] at hr
    obtain ⟨td, _htd, heq⟩ := hr
    rw [← heq]
    exact processTripData_trace_ne_nil env td
  · have hall : ∀ r ∈ (executeTripWorkflow parse env items).itemResults,
        r.success = (r.errors == 0) := by
      intro r hr
      simp only [executeTripWorkflow, List.mem_map] at hr
      obtain ⟨td, _htd, heq⟩ := hr
      rw [← heq]
      exact processTripData_success_iff env td
    have hcount := count_summary _ hall
    have hlen : ((executeTripWorkflow parse env items).itemResults).length
        = (sortTripData parse items).length := by
      simp [executeTripWorkflow]
    calc (executeTripWorkflow parse env items).summary.processed
        + ((executeTripWorkflow parse env items).itemResults.filter
            (fun r => decide (1 ≤ r.errors))).length
      = ((executeTripWorkflow parse env items).itemResults.filter
            (fun r => r.success)).length
        + ((executeTripWorkflow parse env items).itemResults.filter
            (fun r => decide (1 ≤ r.errors))).length := rfl
    _ = ((executeTripWorkflow parse env items).itemResults).length := hcount
    _ = (executeTripWorkflow parse env items).summary.totalTripData := by
        rw [hlen]
        rfl

theorem validateItems_eq_none (parse : String → Option Int) (l : List TripData) :
    ∀ i, (validateItems parse l i = none ↔
      ∀ td ∈ l, td.toteId ≠ "" ∧ td.olpn ≠ "" ∧ td.timestamp ≠ ""
        ∧ (parse td.timestamp).isSome) := by
  induction l with
  | nil => intro i; simp [validateItems]
  | cons td rest ih =>
      intro i
      simp only [validateItems]
      by_cases h1 : td.toteId = "" ∨ td.olpn = "" ∨ td.timestamp = ""
      · rw [if_pos h1]
        constructor
        · intro h
          simp at h
        · intro h
          obtain ⟨ha, hb, hc, _⟩ := h td (List.mem_cons_self td rest)
          rcases h1 with h1 | h1 | h1
          · exact absurd h1 ha
          · exact absurd h1 hb
          · exact absurd h1 hc
      · rw [if_neg h1]
        push_neg at h1
        obtain ⟨ha, hb, hc⟩ := h1
        by_cases h2 : (parse td.timestamp).isNone = true
        · rw [if_pos h2]
          constructor
          · intro h
            simp at h
          · intro h
            obtain ⟨_, _, _, hs⟩ := h td (List.mem_cons_self td rest)
            cases hp : parse td.timestamp with
            | none => rw [hp] at hs; simp at hs
            | some v => rw [hp] at h2; simp at h2
        · rw [if_neg h2]
          rw [ih (i + 1)]
          constructor
          · intro h td' htd'
            rcases List.mem_cons.mp htd' with rfl | htd'
            · refine ⟨ha, hb, hc, ?_⟩
              cases hp : parse td'.timestamp with
              | none => rw [hp] at h2; simp at h2
              | some v => simp
            · exact h td' htd'
          · intro h td' htd'
            exact h td' (List.mem_cons_of_mem _ htd')

/-- C6: `submitBatch` throws exactly when the batch is empty, an item is
missing a required field, an item's timestamp is unparseable (all
ValidationError), or the credentials are missing (ConfigurationError); per
item / per step remote failures never make it throw, and the run's result
always satisfies `success = (errors == 0)`. -/
theorem C6_submitBatch_error_contract (cfg : ServiceConfig) (parse : String → Option Int)
    (env : Env) (items : List TripData) :
    ((validateTripData parse items = none) ↔
      (items ≠ [] ∧ ∀ td ∈ items, td.toteId ≠ "" ∧ td.olpn ≠ "" ∧ td.timestamp ≠ ""
        ∧ (parse td.timestamp).isSome))
  ∧ ((∃ r, submitBatch cfg parse env items = Except.ok r) ↔
      (constructorThrows cfg = false ∧ validateTripData parse items = none))
  ∧ (∀ r, submitBatch cfg parse env items = Except.ok r →
      r = executeTripWorkflow parse env items)
  ∧ (executeTripWorkflow parse env items).success
      = ((executeTripWorkflow parse env items).summary.errors == 0) := by
  refine ⟨?_, ?_, ?_, rfl⟩
  · unfold validateTripData
    by_cases h0 : items.length == 0
    · rw [if_pos h0]
      constructor
      · intro h
        simp at h
      · intro h
        exfalso
        exact h.1 (List.length_eq_zero.mp (by simpa using h0))
    · rw [if_neg h0]
      rw [validateItems_eq_none parse items 0]
      have hne : items ≠ [] := by
        intro h
        rw [h] at h0
        simp at h0
      constructor
      · intro h
        exact ⟨hne, h⟩
      · intro h
        exact h.2
  · unfold submitBatch
    by_cases hc : constructorThrows cfg = true
    · rw [if_pos hc]
      constructor
      · intro ⟨r, hr⟩
        simp at hr
      · intro h
        rw [hc] at h
        simp at h
    · rw [if_neg hc]
      have hcf : constructorThrows cfg = false := by
        cases hx : constructorThrows cfg
        · rfl
        · exact absurd hx hc
      cases hv : validateTripData parse items with
      | some m =>
          constructor
          · intro ⟨r, hr⟩
            simp at hr
          · intro h
            simp at h
      | none =>
          constructor
          · intro _
            exact ⟨hcf, rfl⟩
          · intro _
            exact ⟨executeTripWorkflow parse env items, rfl⟩
  · intro r hr
    unfold submitBatch at hr
    by_cases hc : constructorThrows cfg = true
    · rw [if_pos hc] at hr
      simp at hr
    · rw [if_neg hc] at hr
      cases hv : validateTripData parse items with
      | some m =>
          rw [hv] at hr
          simp at hr
      | none =>
          rw [hv] at hr
          simpa using hr.symm

/-- C5: the batch is handled strictly in non-decreasing `eventTime` order
regardless of submission order — the processed sequence is the stable
ascending sort of the input (a permutation; ties keep submission order),
the caller's array is not mutated — and within an item the operations run
in the fixed order List, then the existing-pair sub-steps in List-returned
order, then Create, StartTracking, Transition. -/
theorem C5_ordering_and_stability (parse : String → Option Int) (env : Env)
    (items : List TripData) :
    ((sortTripData parse items).Pairwise (fun a b => ∀ x y : Int,
        parse a.timestamp = some x → parse b.timestamp = some y → x ≤ y))
  ∧ List.Perm (sortTripData parse items) items
  ∧ (∀ k : Int, (sortTripData parse items).filter (fun td => timeKey parse td == k)
        = items.filter (fun td => timeKey parse td == k))
  ∧ tripDataArrayAfterSort parse items = items
  ∧ (executeTripWorkflow parse env items).itemResults
      = (sortTripData parse items).map (fun td => processTripData env td)
  ∧ ∀ td : TripData, ∃ k, (processTripData env td).trace
      = Op.list td.toteId :: pairsTraceOf env td ++
        ([Op.createTrip td.olpn td.timestamp, Op.startTracking td.toteId td.olpn,
          Op.updateInTransit td.olpn td.timestamp].take k) := by
  refine ⟨?_, List.perm_insertionSort (sortLE parse) items,
    sortTripData_filter_key parse items, rfl, rfl,
    processTripData_trace_shape env⟩
  have hsorted : (sortTripData parse items).Pairwise (sortLE parse) :=
    List.sorted_insertionSort (sortLE parse) items
  refine hsorted.imp_of_mem ?_
  intro a b ha hb hle x y hx hy
  have hka : timeKey parse a = x := by simp [timeKey, hx]
  have hkb : timeKey parse b = y := by simp [timeKey, hy]
  unfold sortLE at hle
  rw [hka, hkb] at hle
  exact hle

/-- C1 (code-bug exhibit): on a valid one-item batch whose CreateTrip call
fails with HTTP 500, the `POST /chorus/process-data` handler still returns
the fixed acknowledgment `{success: true, data: "Trip workflow executed
successfully"}` — it fires `executeTripWorkflow` without awaiting it and
discards its RunSummary — while the run it spawned ends with
`{totalTripData: 1, processed: 0, errors: 1}` and `success = false`. -/
theorem C1_endpoint_fire_and_forget :
    processDataEndpoint c1Parse c1Env c1Batch
      = Except.ok ({ success := true, data := "Trip workflow executed successfully" },
          executeTripWorkflow c1Parse c1Env (sortTripData c1Parse c1Batch))
  ∧ (executeTripWorkflow c1Parse c1Env (sortTripData c1Parse c1Batch)).summary
      = { totalTripData := 1, processed := 0, errors := 1 }
  ∧ (executeTripWorkflow c1Parse c1Env (sortTripData c1Parse c1Batch)).success = false := by
  refine ⟨?_, ?_, ?_⟩ <;> rfl

theorem C4_continue_on_failure_witness :
    ((executeTripWorkflow wParse wEnvAllOk wBatch).itemResults).length = wBatch.length :=
  (C4_continue_on_failure wParse wEnvAllOk wBatch).1

theorem C5_ordering_and_stability_witness :
    tripDataArrayAfterSort wParse wBatch = wBatch :=
  (C5_ordering_and_stability wParse wEnvAllOk wBatch).2.2.2.1

theorem C6_submitBatch_error_contract_witness :
    (executeTripWorkflow wParse wEnvAllOk wBatch).success
      = ((executeTripWorkflow wParse wEnvAllOk wBatch).summary.errors == 0) :=
  (C6_submitBatch_error_contract wCfg wParse wEnvAllOk wBatch).2.2.2

theorem C9_retention_cleanup_witness :
    (deleteOldLogs 2592000100 30 wStore).2
      = wStore.filter (fun r => decide (2592000100 - (30 : Int) * 86400000 ≤ r.timestamp)) :=
  (C9_retention_cleanup 2592000100 30 wStore).1

theorem C10_list_extraction_invariants_witness :
    (listExtract ("T") (some wTrips)).1
      = ((some wTrips).getD []).filterMap (fun t => t.customerId.bind fun c =>
          if jsTrim c = "" then none else some c) :=
  (C10_list_extraction_invariants ("T") (some wTrips)).1

end Chorus
